import Mathlib

/-!
Verification of the texture-compression pipeline (compressTextures.js) and the
KTX container parser (loadKTX.js) against their natural-language specification.

The JavaScript sources are shallowly embedded as executable Lean definitions:
  * numbers that flow through option validation are modelled as rationals
    (the claims under check only involve exact comparisons and floors that
    agree with IEEE-754 evaluation at the relevant points);
  * JavaScript objects become structures with `Option` fields for properties
    that may be absent;
  * synchronous `throw` sites become `Except` errors;
  * byte buffers become `List Nat` with each entry a byte value.

A note on error values in loadKTX.js: the source binds
`var RuntimeError = Cesium.RuntimError;` (a misspelling of the Cesium export
`RuntimeError`), so the local `RuntimeError` is `undefined` and every
`throw new RuntimeError(message)` site in parseKTX actually raises the same
JavaScript `TypeError` (calling `new` on `undefined`); the message argument is
discarded.  The embedding therefore maps each of those sites to the single
error value `JSError.typeErrorCtor`.
-/

/-- Errors observable from the embedded synchronous code.  `developerError`
models a thrown Cesium `DeveloperError` with its message.  `typeErrorCtor`
models the `TypeError` raised by `new RuntimeError(...)` in loadKTX.js, where
`RuntimeError` is `undefined` because of the `Cesium.RuntimError` misspelling;
the intended message is lost, so all such sites map to this one value.
`rangeError` models the `RangeError` raised by out-of-bounds `DataView` reads
and `Uint8Array` constructions. -/
inductive JSError where
  | developerError (message : String)
  | typeErrorCtor
  | rangeError
deriving DecidableEq

/-- Embedding of the `options` object passed to `compressTextures`.  Absent
properties are `none`.  `extra` stands for any further properties of the same
object, which the function never touches (used to state the frame effect). -/
structure JsOptions where
  format : Option String
  quality : Option ℚ
  bitrate : Option ℚ
  blockSize : Option String
  alphaBit : Option Bool
  extra : List (String × String)
deriving DecidableEq

/-- Embedding of one glTF image together with its `extras._pipeline` data, the
fields read by the per-image loop of `compressTextures`. -/
structure ImageInput where
  hasJimpImage : Bool
  jimpWidth : Nat
  jimpHeight : Nat
  hasAbsolutePath : Bool
  absolutePath : String
  source : List Nat
  transparent : Bool
  extension : String
  imageChanged : Bool
deriving DecidableEq

/-- The per-image work item produced by the loop body of `compressTextures`:
either the raw-pixel path (`compressJimpImage` after an optional resize, with
the pixel dimensions handed to the encoder) or one of the two passthrough
paths that forward the original bytes or file untouched (`compressFile` on the
external file, `compressBuffer` on the embedded bytes). -/
inductive ImageTask where
  | rawPixels (width height : Nat)
  | passthroughFile (path : String)
  | passthroughBuffer (bytes : List Nat) (extension : String)
deriving DecidableEq

/-- Module table `formats` of compressTextures.js: the 11 supported format
names. -/
def formats : List String :=
  ["pvrtc1", "pvrtc2", "etc1", "etc2", "astc", "dxt1", "dxt3", "dxt5",
   "crunch-dxt1", "crunch-dxt3", "crunch-dxt5"]

/-- Module table `astcBlockSizes` of compressTextures.js. -/
def astcBlockSizes : List String :=
  ["4x4", "5x4", "5x5", "6x5", "6x6", "8x5", "8x6", "8x8", "10x5", "10x6",
   "10x8", "10x10", "12x10", "12x12"]

/-- Module table `pvrTexToolExtensions` of compressTextures.js. -/
def pvrTexToolExtensions : List String := [".jpeg", ".jpg", ".png", ".bmp"]

/-- Module table `etc2compExtensions` of compressTextures.js. -/
def etc2compExtensions : List String := [".png"]

/-- Module table `crunchExtensions` of compressTextures.js. -/
def crunchExtensions : List String := [".jpeg", ".jpg", ".png", ".bmp"]

/-- Module table `astcencExtensions` of compressTextures.js. -/
def astcencExtensions : List String := [".jpeg", ".jpg", ".png", ".bmp", ".gif"]

/-- The `inputExtensions` selected by the format dispatch chain of
`compressTextures` (lines 93-118 of compressTextures.js).  The final `[]`
branch is unreachable for validated formats: the JavaScript would leave the
variable `undefined` there, but the dispatch is only reached after `format`
passed the membership check against `formats`. -/
def inputExtensionsFor (format : String) : List String :=
  if format == "pvrtc1" || format == "pvrtc2" then pvrTexToolExtensions
  else if format == "etc1" || format == "etc2" then etc2compExtensions
  else if format == "dxt1" || format == "dxt3" || format == "dxt5" ||
          format == "crunch-dxt1" || format == "crunch-dxt3" ||
          format == "crunch-dxt5" then crunchExtensions
  else if format == "astc" then astcencExtensions
  else []

/-- The `resizeToPowerOfTwo` flag selected by the same dispatch chain: it is
set to `true` exactly in the `etc1`/`etc2` and `astc` branches. -/
def resizeToPowerOfTwoFor (format : String) : Bool :=
  format == "etc1" || format == "etc2" || format == "astc"

/-- Embedding of `previousPowerOfTwo` (compressTextures.js lines 181-188).
The JavaScript operators `|` and `>>` act on 32-bit signed integers; for the
dimensions this function receives (nonnegative values below 2 to the 31) they
coincide with the natural-number `|||` and `>>>` used here, and no
intermediate result leaves that range. -/
def smearStep (shift m : Nat) : Nat := m ||| m >>> shift

/-- The bit-smearing cascade of `previousPowerOfTwo`: after these five steps
every bit position at or below the highest set bit of the input is set. -/
def smear (n : Nat) : Nat :=
  smearStep 16 (smearStep 8 (smearStep 4 (smearStep 2 (smearStep 1 n))))

/-- Embedding of the full `previousPowerOfTwo` body: smear the bits, then
`return n - (n >> 1)`. -/
def previousPowerOfTwo (n : Nat) : Nat := smear n - smear n >>> 1

/-- Modelled from the spec: `CesiumMath.isPowerOfTwo`, an external Cesium
collaborator not part of this repository.  It returns `n !== 0 && (n & (n - 1))
=== 0`. -/
def isPowerOfTwo (n : Nat) : Bool := n != 0 && n &&& (n - 1) == 0

/-- The resize decision inside the raw-pixel branch of the per-image loop
(compressTextures.js lines 149-157): if either dimension is not a power of
two, both dimensions are shrunk with `previousPowerOfTwo`; otherwise the image
keeps its dimensions and no resize happens. -/
def resizeDimensions (w h : Nat) : Nat × Nat :=
  if !isPowerOfTwo w || !isPowerOfTwo h then
    (previousPowerOfTwo w, previousPowerOfTwo h)
  else (w, h)

/-- The body of the per-image loop of `compressTextures` (lines 139-167): the
raw-pixel path is taken when `resizeToPowerOfTwo || imageChanged ||
!inputExtensions.includes(extension)`; inside it, a missing `jimpImage` throws
a `DeveloperError` whose message interpolates the requested compression
format; otherwise the original bytes are passed through (file path or embedded
buffer). -/
def buildImageTask (format : String) (img : ImageInput) :
    Except JSError ImageTask :=
  if resizeToPowerOfTwoFor format || img.imageChanged ||
      !((inputExtensionsFor format).contains img.extension) then
    if !img.hasJimpImage then
      .error (.developerError
        ("The input image format \"" ++ format ++
         "\" is not supported for texture compression."))
    else
      let wh :=
        if resizeToPowerOfTwoFor format then
          resizeDimensions img.jimpWidth img.jimpHeight
        else (img.jimpWidth, img.jimpHeight)
      .ok (.rawPixels wh.1 wh.2)
  else if img.hasAbsolutePath then
    .ok (.passthroughFile img.absolutePath)
  else
    .ok (.passthroughBuffer img.source img.extension)

/-- The `for (var imageId in images)` loop of `compressTextures`: tasks are
created image by image, and a throw inside the loop body aborts the loop
synchronously, so images after the throwing one never get a task. -/
def buildTasks (format : String) : List ImageInput → Except JSError (List ImageTask)
  | [] => .ok []
  | img :: rest =>
    match buildImageTask format img with
    | .error e => .error e
    | .ok t =>
      match buildTasks format rest with
      | .error e => .error e
      | .ok ts => .ok (t :: ts)

/-- Embedding of the synchronous prefix of `compressTextures` (lines 54-170):
option validation, the in-place defaulting of the caller-supplied options
object, and the task-creating loop.  The first component of the result is the
caller-visible state of the options object when the call returns or throws
(the function mutates that object in place); the second is either the thrown
`DeveloperError` or the list of per-image tasks.  Asynchronous work
(`fsExtraEnsureDir`, the spawned encoders) starts only from the returned
tasks, so an `error` result means no asynchronous work or I/O was started.
The initial `gltf must be defined` guard is outside this model because the
image collection is always a value here. -/
def compressTextures (images : List ImageInput) (options : JsOptions) :
    JsOptions × Except JSError (List ImageTask) :=
  match options.format with
  | none => (options, .error (.developerError "options.format must be defined."))
  | some format =>
    if !(formats.contains format) then
      (options, .error (.developerError
        ("format \"" ++ format ++ "\" is not a supported format. " ++
         "Supported formats are " ++ String.intercalate ", " formats ++ ".")))
    else
      let quality := options.quality.getD 5
      let bitrate := options.bitrate.getD 2
      let blockSize := options.blockSize.getD "8x8"
      let alphaBit := options.alphaBit.getD false
      let mutated : JsOptions :=
        { options with
          quality := some quality
          bitrate := some bitrate
          blockSize := some blockSize
          alphaBit := some alphaBit }
      if quality < 0 ∨ 10 < quality then
        (mutated, .error (.developerError "Quality must be between 0 and 10."))
      else if (format = "pvrtc1" ∨ format = "pvrtc2") ∧ bitrate ≠ 2 ∧ bitrate ≠ 4 then
        (mutated, .error (.developerError
          "bitrate (bits-per-pixel) must be 2 or 4 when using pvrtc."))
      else if format = "astc" ∧ (astcBlockSizes.contains blockSize) = false then
        (mutated, .error (.developerError
          ("Block size \"" ++ blockSize ++ "\" is not supported. " ++
           "Supported values are " ++ String.intercalate ", " astcBlockSizes ++ ".")))
      else
        (mutated, buildTasks format images)

/-- Decides whether an embedded result is a thrown `DeveloperError` (the
`InvalidOptions` failure kind of the spec taxonomy). -/
def isDeveloperError {α : Type} : Except JSError α → Bool
  | .error (.developerError _) => true
  | _ => false

/-- Decides whether a task forwards the original bytes unchanged (either
passthrough path). -/
def taskIsPassthrough : Except JSError ImageTask → Bool
  | .ok (.passthroughFile _) => true
  | .ok (.passthroughBuffer _ _) => true
  | _ => false

/-- Quality-tier computation shared by `compressWithPVRTexTool`,
`compressWithCrunch` and `compressWithAstcenc`:
`Math.floor(options.quality / 2.1)`, mapping the 0-10 quality scale to a 0-4
tier index. -/
def qualityTier (q : ℚ) : ℤ := ⌊q / (21 / 10 : ℚ)⌋

/-- The `qualityOptions` table of `compressWithPVRTexTool`. -/
def pvrtcQualityOptions : List String :=
  ["pvrtcfastest", "pvrtcfast", "pvrtcnormal", "pvrtchigh", "pvrtcbest"]

/-- The `dxtQualityOptions` table of `compressWithCrunch`. -/
def dxtQualityOptions : List String :=
  ["superfast", "fast", "normal", "better", "uber"]

/-- The `qualityOptions` table of `compressWithAstcenc`. -/
def astcQualityOptions : List String :=
  ["-veryfast", "-fast", "-medium", "-thorough", "-exhaustive"]

/-- Bool test that `small` starts `big`, elementwise. -/
def leadsWith : List Char → List Char → Bool
  | [], _ => true
  | _ :: _, [] => false
  | a :: as, b :: bs => a == b && leadsWith as bs

/-- Bool test that `needle` occurs somewhere inside `hay`, the semantics of
JavaScript `hay.indexOf(needle) >= 0`. -/
def hasSubList (needle : List Char) : List Char → Bool
  | [] => needle.isEmpty
  | c :: rest => leadsWith needle (c :: rest) || hasSubList needle rest

/-- The output container extension chosen by `compressFile`
(compressTextures.js lines 242-247): `.ktx`, except `.crn` when
`options.format.indexOf("crunch") >= 0`. -/
def compressFileExtension (format : String) : String :=
  if hasSubList "crunch".data format.data then ".crn" else ".ktx"

/-- The 12-byte KTX magic, module constant `fileIdentifier` of loadKTX.js. -/
def fileIdentifier : List Nat :=
  [0xAB, 0x4B, 0x54, 0x58, 0x20, 0x31, 0x31, 0xBB, 0x0D, 0x0A, 0x1A, 0x0A]

/-- Module constant `endiannessTest` of loadKTX.js. -/
def endiannessTest : Nat := 0x04030201

/-- The magic-comparison loop of `parseKTX`: every byte among the first 12
must equal the corresponding identifier byte (reading past the end of the
buffer yields `undefined` in JavaScript, which always mismatches, so a short
buffer also fails; taking exactly 12 bytes captures both cases). -/
def magicMatches (data : List Nat) : Bool := data.take 12 == fileIdentifier

/-- Embedding of `DataView.getUint32(offset, true)` over a byte list:
little-endian 32-bit read, raising `RangeError` when fewer than four bytes are
available at the offset. -/
def getUint32 (data : List Nat) (off : Nat) : Except JSError Nat :=
  if off + 4 ≤ data.length then
    .ok (data.getD off 0 + 256 * data.getD (off + 1) 0 +
         65536 * data.getD (off + 2) 0 + 16777216 * data.getD (off + 3) 0)
  else .error .rangeError

/-- Modelled from the spec: `PixelFormat.RGB`, an external Cesium constant
(the WebGL enum value). -/
def pixelFormatRGB : Nat := 0x1907

/-- Modelled from the spec: `PixelFormat.RGBA`, an external Cesium constant
(the WebGL enum value). -/
def pixelFormatRGBA : Nat := 0x1908

/-- Modelled from the spec: the set of pixel-format enum values accepted by
the external `PixelFormat.validate` (Cesium collaborator, not part of this
repository): the uncompressed WebGL formats plus the compressed DXT, PVRTC
and ETC1 formats. -/
def validPixelFormats : List Nat :=
  [0x1902, 0x1906, 0x1907, 0x1908, 0x1909, 0x190A, 0x84F9,
   0x83F0, 0x83F1, 0x83F2, 0x83F3, 0x8C00, 0x8C01, 0x8C02, 0x8C03, 0x8D64]

/-- Modelled from the spec: the compressed subset recognised by the external
`PixelFormat.isCompressedFormat`. -/
def compressedPixelFormats : List Nat :=
  [0x83F0, 0x83F1, 0x83F2, 0x83F3, 0x8C00, 0x8C01, 0x8C02, 0x8C03, 0x8D64]

/-- Modelled from the spec: external `PixelFormat.validate`. -/
def pixelFormatValidate (f : Nat) : Bool := validPixelFormats.contains f

/-- Modelled from the spec: external `PixelFormat.isCompressedFormat`. -/
def isCompressedFormat (f : Nat) : Bool := compressedPixelFormats.contains f

/-- Modelled from the spec: external `PixelFormat.compressedTextureSize`, the
byte size of one mip level - `floor((w+3)/4) * floor((h+3)/4) * bytesPerBlock`
for the block formats (8 bytes for DXT1 and ETC1, 16 for DXT3/DXT5), and the
PVRTC-specific equivalents. -/
def compressedTextureSize (f w h : Nat) : Nat :=
  if f == 0x83F0 || f == 0x83F1 || f == 0x8D64 then
    ((w + 3) / 4) * ((h + 3) / 4) * 8
  else if f == 0x83F2 || f == 0x83F3 then
    ((w + 3) / 4) * ((h + 3) / 4) * 16
  else if f == 0x8C00 || f == 0x8C02 then
    (max w 8 * max h 8 * 4 + 7) / 8
  else if f == 0x8C01 || f == 0x8C03 then
    (max w 16 * max h 8 * 2 + 7) / 8
  else 0

/-- Result of `parseKTX`: the `CompressedTextureBuffer` of loadKTX.js.  The
`bufferView` is the `Uint8Array` view the code builds over the input buffer,
recorded as its (offset, length) pair over `data`, matching the zero-copy
JavaScript view. -/
structure KTXResult where
  internalFormat : Nat
  width : Nat
  height : Nat
  viewOffset : Nat
  viewLength : Nat
deriving DecidableEq

/-- Embedding of `parseKTX` (loadKTX.js lines 147-263) for an `ArrayBuffer`
input (so the initial `byteOffset` is 0).  Field reads and checks follow the
source order exactly.  Every `throw new RuntimeError(message)` site becomes
`JSError.typeErrorCtor` because the source misspells `Cesium.RuntimError`
(see the note on `JSError`).  The final mip-level branch reproduces
`new Uint8Array(texture.buffer, 0, levelSize)` faithfully: the view is rooted
at offset 0 of the underlying buffer, the start of the file, not at the
texture byte range. -/
def parseKTX (data : List Nat) : Except JSError KTXResult := do
  if !magicMatches data then
    throw .typeErrorCtor
  let endianness ← getUint32 data 12
  if endianness != endiannessTest then
    throw .typeErrorCtor
  let glType ← getUint32 data 16
  let glTypeSize ← getUint32 data 20
  let glFormat ← getUint32 data 24
  let glInternalFormatRaw ← getUint32 data 28
  let glBaseInternalFormat ← getUint32 data 32
  let pixelWidth ← getUint32 data 36
  let pixelHeight ← getUint32 data 40
  let pixelDepth ← getUint32 data 44
  let numberOfArrayElements ← getUint32 data 48
  let numberOfFaces ← getUint32 data 52
  let numberOfMipmapLevels ← getUint32 data 56
  let bytesOfKeyValueByteSize ← getUint32 data 60
  let imageSize ← getUint32 data (64 + bytesOfKeyValueByteSize)
  let textureOffset := 68 + bytesOfKeyValueByteSize
  if data.length < textureOffset + imageSize then
    throw .rangeError
  let glInternalFormat :=
    if glInternalFormatRaw == 0x8051 then pixelFormatRGB
    else if glInternalFormatRaw == 0x8058 then pixelFormatRGBA
    else glInternalFormatRaw
  if !pixelFormatValidate glInternalFormat then
    throw .typeErrorCtor
  if isCompressedFormat glInternalFormat then
    if glType != 0 then throw .typeErrorCtor
    if glTypeSize != 1 then throw .typeErrorCtor
    if glFormat != 0 then throw .typeErrorCtor
    if numberOfMipmapLevels == 0 then throw .typeErrorCtor
  else
    if glBaseInternalFormat != glFormat then throw .typeErrorCtor
  if pixelDepth != 0 then throw .typeErrorCtor
  if numberOfArrayElements != 0 then throw .typeErrorCtor
  if numberOfFaces != 1 then throw .typeErrorCtor
  if isCompressedFormat glInternalFormat ∧ 1 < numberOfMipmapLevels then
    let levelSize := compressedTextureSize glInternalFormat pixelWidth pixelHeight
    if data.length < levelSize then
      throw .rangeError
    pure ⟨glInternalFormat, pixelWidth, pixelHeight, 0, levelSize⟩
  else
    pure ⟨glInternalFormat, pixelWidth, pixelHeight, textureOffset, imageSize⟩

/-- The bytes exposed by the returned bufferView: the (offset, length) slice
of the input buffer, or `[]` when parsing failed. -/
def parseKTXViewBytes (data : List Nat) : List Nat :=
  match parseKTX data with
  | .ok r => (data.drop r.viewOffset).take r.viewLength
  | .error _ => []

/-- Little-endian serialisation of a 32-bit value, for building concrete KTX
containers. -/
def u32le (n : Nat) : List Nat :=
  [n % 256, n / 256 % 256, n / 65536 % 256, n / 16777216 % 256]

/-- Concrete well-formed KTX container: DXT1 (0x83F0), 4 by 4 pixels,
numberOfMipmapLevels = 2, no key/value data, imageSize = 16, texture data
bytes 100..115 starting at offset 68. -/
def ktxTwoMipContainer : List Nat :=
  fileIdentifier ++ u32le 0x04030201 ++ u32le 0 ++ u32le 1 ++ u32le 0 ++
  u32le 0x83F0 ++ u32le 0 ++ u32le 4 ++ u32le 4 ++ u32le 0 ++ u32le 0 ++
  u32le 1 ++ u32le 2 ++ u32le 0 ++ u32le 16 ++
  [100, 101, 102, 103, 104, 105, 106, 107,
   108, 109, 110, 111, 112, 113, 114, 115]

/-- Concrete buffer whose first 12 bytes are not the KTX magic. -/
def ktxBadMagicBuffer : List Nat := List.replicate 16 0

/-- Concrete buffer with correct magic but a byte-swapped endianness marker
(0x01020304 instead of 0x04030201). -/
def ktxBadEndianBuffer : List Nat := fileIdentifier ++ u32le 0x01020304

/-- One per-image asynchronous task of a batch run, abstracted to its outcome
and the instant at which its promise settles (all of its filesystem activity
is complete by then). -/
structure TaskRun where
  ok : Bool
  settleAt : Nat
deriving DecidableEq

/-- The instant at which the last task of the batch settles. -/
def allTasksSettledAt (ts : List TaskRun) : Nat :=
  (ts.map TaskRun.settleAt).foldr max 0

/-- Settle instants of the failed tasks. -/
def failedSettleTimes (ts : List TaskRun) : List Nat :=
  (ts.filter (fun t => !t.ok)).map TaskRun.settleAt

/-- When `Promise.all(promises)` settles: at the last fulfilment if every task
succeeds, otherwise at the first rejection (the earliest failure instant),
while sibling tasks keep running. -/
def promiseAllSettlesAt (ts : List TaskRun) : Nat :=
  match failedSettleTimes ts with
  | [] => allTasksSettledAt ts
  | f :: rest => rest.foldr min f

/-- When the `.finally` continuation of compressTextures.js lines 172-178
invokes `fsExtraRemove(tempDirectory)`: exactly when the aggregate settles.
The removal promise is not returned from the handler, so it is neither
awaited nor able to influence the batch outcome. -/
def tempDirectoryRemoveStartsAt (ts : List TaskRun) : Nat := promiseAllSettlesAt ts

/-- Whether the batch promise resolves, as a function of the task outcomes and
of whether the fire-and-forget removal succeeds: the removal argument is
ignored by the code, which discards the promise returned by
`fsExtraRemove`. -/
def batchResolves (ts : List TaskRun) (_removeSucceeds : Bool) : Bool :=
  ts.all TaskRun.ok

/-! Helper lemmas about the bit-smearing cascade. -/

theorem smearStep_testBit (shift m i : Nat) :
    (smearStep shift m).testBit i = (m.testBit i || m.testBit (i + shift)) := by
  rw [smearStep, Nat.testBit_or, Nat.testBit_shiftRight, Nat.add_comm shift i]

theorem smearStep_window (w m n : Nat)
    (h : ∀ i, m.testBit i = true ↔ ∃ s, s < w ∧ n.testBit (i + s) = true) :
    ∀ i, (smearStep w m).testBit i = true ↔
      ∃ s, s < 2 * w ∧ n.testBit (i + s) = true := by
  intro i
  rw [smearStep_testBit, Bool.or_eq_true, h i, h (i + w)]
  constructor
  · rintro (⟨s, hs, hb⟩ | ⟨s, hs, hb⟩)
    · exact ⟨s, by omega, hb⟩
    · refine ⟨w + s, by omega, ?_⟩
      rwa [← Nat.add_assoc]
  · rintro ⟨s, hs, hb⟩
    by_cases hsw : s < w
    · exact Or.inl ⟨s, hsw, hb⟩
    · refine Or.inr ⟨s - w, by omega, ?_⟩
      have hws : w + (s - w) = s := by omega
      rw [Nat.add_assoc, hws]
      exact hb

theorem smear_testBit (n : Nat) :
    ∀ i, (smear n).testBit i = true ↔ ∃ s, s < 32 ∧ n.testBit (i + s) = true := by
  have h1 : ∀ i, n.testBit i = true ↔ ∃ s, s < 1 ∧ n.testBit (i + s) = true := by
    intro i
    constructor
    · intro h
      exact ⟨0, Nat.zero_lt_one, by simpa using h⟩
    · rintro ⟨s, hs, hb⟩
      have hs0 : s = 0 := by omega
      subst hs0
      simpa using hb
  have h2 := smearStep_window 1 n n h1
  have h4 := smearStep_window 2 (smearStep 1 n) n (fun i => by simpa using h2 i)
  have h8 := smearStep_window 4 (smearStep 2 (smearStep 1 n)) n
    (fun i => by simpa using h4 i)
  have h16 := smearStep_window 8 (smearStep 4 (smearStep 2 (smearStep 1 n))) n
    (fun i => by simpa using h8 i)
  have h32 := smearStep_window 16
    (smearStep 8 (smearStep 4 (smearStep 2 (smearStep 1 n)))) n
    (fun i => by simpa using h16 i)
  intro i
  have := h32 i
  rw [smear]
  simpa using this

theorem smear_eq_two_pow_sub_one {n : Nat} (h0 : 0 < n) (h31 : n < 2 ^ 31) :
    smear n = 2 ^ (Nat.log2 n + 1) - 1 := by
  have hne : n ≠ 0 := by omega
  have hk30 : Nat.log2 n ≤ 30 := by
    have := (Nat.log2_lt hne).mpr h31
    omega
  have hbitk : n.testBit (Nat.log2 n) = true := by
    have hle : 2 ^ Nat.log2 n ≤ n := Nat.log2_self_le hne
    have hlt : n < 2 ^ (Nat.log2 n + 1) := Nat.lt_log2_self
    have hp : 0 < 2 ^ Nat.log2 n := Nat.pow_pos (by norm_num)
    have hdiv : n / 2 ^ Nat.log2 n = 1 := by
      have e1 : 1 ≤ n / 2 ^ Nat.log2 n := (Nat.one_le_div_iff hp).mpr hle
      have e2 : n / 2 ^ Nat.log2 n < 2 := by
        rw [Nat.div_lt_iff_lt_mul hp]
        rw [Nat.pow_succ] at hlt
        omega
      omega
    rw [Nat.testBit_to_div_mod, hdiv]
    decide
  apply Nat.eq_of_testBit_eq
  intro i
  rw [Nat.testBit_two_pow_sub_one]
  by_cases hik : i ≤ Nat.log2 n
  · have ht : (smear n).testBit i = true := by
      refine (smear_testBit n i).mpr ⟨Nat.log2 n - i, by omega, ?_⟩
      have hh : i + (Nat.log2 n - i) = Nat.log2 n := by omega
      rw [hh]
      exact hbitk
    rw [ht]
    have : i < Nat.log2 n + 1 := by omega
    simp [this]
  · have hf : (smear n).testBit i = false := by
      cases hx : (smear n).testBit i
      · rfl
      · exfalso
        obtain ⟨s, hs, hb⟩ := (smear_testBit n i).mp hx
        have hlt2 : n < 2 ^ (i + s) := by
          have h1 : n < 2 ^ (Nat.log2 n + 1) := Nat.lt_log2_self
          have h2 : 2 ^ (Nat.log2 n + 1) ≤ 2 ^ (i + s) :=
            Nat.pow_le_pow_right (by norm_num) (by omega)
          omega
        rw [Nat.testBit_eq_false_of_lt hlt2] at hb
        exact Bool.noConfusion hb
    rw [hf]
    have : ¬ (i < Nat.log2 n + 1) := by omega
    simp [this]

theorem previousPowerOfTwo_eq_pow_log2 {n : Nat} (h0 : 0 < n)
    (h31 : n < 2 ^ 31) : previousPowerOfTwo n = 2 ^ Nat.log2 n := by
  have hs := smear_eq_two_pow_sub_one h0 h31
  rw [previousPowerOfTwo, hs, Nat.shiftRight_one]
  have hp : 0 < 2 ^ Nat.log2 n := Nat.pow_pos (by norm_num)
  have h2 : 2 ^ (Nat.log2 n + 1) = 2 ^ Nat.log2 n * 2 := Nat.pow_succ 2 (Nat.log2 n)
  omega

theorem isPowerOfTwo_two_pow (j : Nat) : isPowerOfTwo (2 ^ j) = true := by
  have hpos : 2 ^ j ≠ 0 := pow_ne_zero j two_ne_zero
  have hand : 2 ^ j &&& (2 ^ j - 1) = 0 := by
    rw [Nat.and_pow_two_sub_one_eq_mod]
    exact Nat.mod_self _
  simp [isPowerOfTwo, hpos, hand]

/-! Helper lemmas about folded minima, for the batch settlement model. -/

theorem foldr_min_le_init (l : List Nat) (f : Nat) : l.foldr min f ≤ f := by
  induction l with
  | nil => exact Nat.le_refl f
  | cons b l ih =>
    calc (b :: l).foldr min f = min b (l.foldr min f) := rfl
    _ ≤ l.foldr min f := Nat.min_le_right b _
    _ ≤ f := ih

theorem foldr_min_le_mem (l : List Nat) (f x : Nat) (hx : x ∈ l) :
    l.foldr min f ≤ x := by
  induction l with
  | nil => cases hx
  | cons b l ih =>
    rcases List.mem_cons.mp hx with hb | hl
    · subst hb
      exact Nat.min_le_left x _
    · calc (b :: l).foldr min f = min b (l.foldr min f) := rfl
      _ ≤ l.foldr min f := Nat.min_le_right b _
      _ ≤ x := ih hl

/-- Claim C3: `previousPowerOfTwo n` is the largest power of two that is at
most `n`, for every positive dimension in the signed 32-bit range; a 211 by
211 image under a power-of-two-mandatory format is resized to exactly
128 by 128, and dimensions that are already powers of two are left
unchanged by the resize decision. -/
theorem previousPowerOfTwo_largest_pow2_le :
    (∀ n, 0 < n → n < 2 ^ 31 →
      previousPowerOfTwo n = 2 ^ Nat.log2 n ∧
      previousPowerOfTwo n ≤ n ∧
      n < 2 * previousPowerOfTwo n ∧
      (∀ j, 2 ^ j ≤ n → 2 ^ j ≤ previousPowerOfTwo n)) ∧
    resizeDimensions 211 211 = (128, 128) ∧
    (∀ j k, resizeDimensions (2 ^ j) (2 ^ k) = (2 ^ j, 2 ^ k)) := by
  refine ⟨?_, by decide, ?_⟩
  · intro n h0 h31
    have heq := previousPowerOfTwo_eq_pow_log2 h0 h31
    have hne : n ≠ 0 := by omega
    have hle : 2 ^ Nat.log2 n ≤ n := Nat.log2_self_le hne
    have hlt : n < 2 ^ (Nat.log2 n + 1) := Nat.lt_log2_self
    have hmul : 2 ^ (Nat.log2 n + 1) = 2 ^ Nat.log2 n * 2 :=
      Nat.pow_succ 2 (Nat.log2 n)
    refine ⟨heq, by omega, by omega, ?_⟩
    intro j hj
    rw [heq]
    have hjk : j ≤ Nat.log2 n := by
      by_contra hc
      have hge : 2 ^ (Nat.log2 n + 1) ≤ 2 ^ j :=
        Nat.pow_le_pow_right (by norm_num) (by omega)
      omega
    exact Nat.pow_le_pow_right (by norm_num) hjk
  · intro j k
    simp [resizeDimensions, isPowerOfTwo_two_pow]

/-- Witness for claim C3 at the concrete input 211. -/
theorem previousPowerOfTwo_largest_pow2_le_witness :
    previousPowerOfTwo 211 = 2 ^ Nat.log2 211 ∧
    resizeDimensions 211 211 = (128, 128) :=
  ⟨(previousPowerOfTwo_largest_pow2_le.1 211 (by decide) (by decide)).1,
   previousPowerOfTwo_largest_pow2_le.2.1⟩

/-- Claim C6, counterexample: with one task failing at instant 1 and a
sibling succeeding at instant 5, the temp-directory removal starts at
instant 1, before all per-image tasks have settled, refuting the claim that
removal happens only after every task has settled. -/
theorem tempDirectory_removal_before_sibling_settles :
    tempDirectoryRemoveStartsAt [⟨false, 1⟩, ⟨true, 5⟩] = 1 ∧
    allTasksSettledAt [⟨false, 1⟩, ⟨true, 5⟩] = 5 ∧
    tempDirectoryRemoveStartsAt [⟨false, 1⟩, ⟨true, 5⟩] <
      allTasksSettledAt [⟨false, 1⟩, ⟨true, 5⟩] := by
  decide

/-- Claim C6, amended: the single `.finally` handler starts the removal
exactly when the aggregate `Promise.all` settles - which is when the last task
settles in an all-success batch, but no later than the first failure when any
task fails (sibling tasks may then still be running); and the batch outcome
never depends on whether the fire-and-forget removal succeeds. -/
theorem tempDirectory_removal_at_aggregate_settlement :
    (∀ ts : List TaskRun, ts.all TaskRun.ok = true →
      tempDirectoryRemoveStartsAt ts = allTasksSettledAt ts) ∧
    (∀ ts : List TaskRun, ∀ t : TaskRun, t ∈ ts → t.ok = false →
      tempDirectoryRemoveStartsAt ts ≤ t.settleAt) ∧
    (∀ ts ra rb, batchResolves ts ra = batchResolves ts rb) := by
  refine ⟨?_, ?_, fun _ _ _ => rfl⟩
  · intro ts hall
    have hfilter : ts.filter (fun t => !t.ok) = [] := by
      rw [List.filter_eq_nil_iff]
      intro a ha
      have := List.all_eq_true.mp hall a ha
      simp [this]
    unfold tempDirectoryRemoveStartsAt promiseAllSettlesAt failedSettleTimes
    rw [hfilter]
    rfl
  · intro ts t ht hok
    have hmem : t.settleAt ∈ failedSettleTimes ts := by
      unfold failedSettleTimes
      exact List.mem_map_of_mem _ (List.mem_filter.mpr ⟨ht, by simp [hok]⟩)
    unfold tempDirectoryRemoveStartsAt promiseAllSettlesAt
    rcases hcase : failedSettleTimes ts with _ | ⟨f, rest⟩
    · rw [hcase] at hmem
      cases hmem
    · rw [hcase] at hmem
      rcases List.mem_cons.mp hmem with hf | hr
      · rw [← hf]
        exact foldr_min_le_init rest t.settleAt
      · exact foldr_min_le_mem rest f t.settleAt hr

/-- Witness for the amended claim C6 at concrete batches: an all-success
batch removes at the last settlement, and a failing batch removes no later
than the failure instant. -/
theorem tempDirectory_removal_at_aggregate_settlement_witness :
    tempDirectoryRemoveStartsAt [⟨true, 2⟩, ⟨true, 7⟩] =
      allTasksSettledAt [⟨true, 2⟩, ⟨true, 7⟩] ∧
    tempDirectoryRemoveStartsAt [⟨false, 3⟩] ≤ 3 ∧
    batchResolves [⟨false, 3⟩] true = batchResolves [⟨false, 3⟩] false :=
  ⟨tempDirectory_removal_at_aggregate_settlement.1 [⟨true, 2⟩, ⟨true, 7⟩]
      (by decide),
   tempDirectory_removal_at_aggregate_settlement.2.1 [⟨false, 3⟩] ⟨false, 3⟩
      (by decide) (by decide),
   tempDirectory_removal_at_aggregate_settlement.2.2 [⟨false, 3⟩] true false⟩

/-- Concrete image for claim C1: embedded 256 by 256 png, not dirty, with
decoded pixels available - every passthrough precondition of the claim
holds for format `etc1`. -/
def etc1PassthroughCandidate : ImageInput :=
  { hasJimpImage := true
    jimpWidth := 256
    jimpHeight := 256
    hasAbsolutePath := false
    absolutePath := ""
    source := [1, 2, 3]
    transparent := false
    extension := ".png"
    imageChanged := false }

/-- Claim C1, counterexample: for format `etc1` the extension `.png` is in
the accepted set, both dimensions (256) are powers of two and the image is
not dirty, yet the loop takes the raw-pixel branch (decode and re-encode, no
resize) instead of the passthrough branch, because the branch condition tests
the static `resizeToPowerOfTwo` flag of the format, not whether a resize is
actually needed.  So the claim fails for `etc1` (and likewise `etc2`,
`astc`). -/
theorem passthrough_not_taken_for_etc1_counterexample :
    (inputExtensionsFor "etc1").contains etc1PassthroughCandidate.extension = true ∧
    isPowerOfTwo etc1PassthroughCandidate.jimpWidth = true ∧
    isPowerOfTwo etc1PassthroughCandidate.jimpHeight = true ∧
    etc1PassthroughCandidate.imageChanged = false ∧
    buildImageTask "etc1" etc1PassthroughCandidate =
      .ok (ImageTask.rawPixels 256 256) ∧
    taskIsPassthrough (buildImageTask "etc1" etc1PassthroughCandidate) = false :=
  ⟨rfl, rfl, rfl, rfl, rfl, rfl⟩

/-- Claim C1, amended: the passthrough guarantee holds for the eight formats
whose policy does not set the `resizeToPowerOfTwo` flag (`pvrtc1`, `pvrtc2`,
`dxt1`, `dxt3`, `dxt5`, `crunch-dxt1`, `crunch-dxt3`, `crunch-dxt5`): for
every image whose extension is in the accepted set and whose dirty flag is
false - whatever its pixel dimensions - the original bytes (external file
path, or embedded buffer with its extension) are forwarded unchanged to the
encoder.  For `etc1`, `etc2` and `astc` the raw-pixel path is always taken
instead. -/
theorem passthrough_for_non_resize_formats :
    ∀ format img,
      (format = "pvrtc1" ∨ format = "pvrtc2" ∨ format = "dxt1" ∨
       format = "dxt3" ∨ format = "dxt5" ∨ format = "crunch-dxt1" ∨
       format = "crunch-dxt3" ∨ format = "crunch-dxt5") →
      (inputExtensionsFor format).contains img.extension = true →
      img.imageChanged = false →
      buildImageTask format img =
        .ok (if img.hasAbsolutePath then ImageTask.passthroughFile img.absolutePath
             else ImageTask.passthroughBuffer img.source img.extension) := by
  intro format img hfmt hext hchg
  have hresize : resizeToPowerOfTwoFor format = false := by
    rcases hfmt with h | h | h | h | h | h | h | h <;> subst h <;> decide
  have hmem : img.extension ∈ inputExtensionsFor format := by simpa using hext
  cases habs : img.hasAbsolutePath <;>
    simp [buildImageTask, hresize, hchg, habs, hmem]

/-- Concrete image for the witness of the amended claim C1: an external
`.png` file, clean, under format `dxt1`, with non-power-of-two dimensions
(211 by 211, the repository test image) to show the guarantee does not
depend on the dimensions. -/
def dxt1PassthroughInput : ImageInput :=
  { hasJimpImage := true
    jimpWidth := 211
    jimpHeight := 211
    hasAbsolutePath := true
    absolutePath := "logo.png"
    source := []
    transparent := false
    extension := ".png"
    imageChanged := false }

/-- Witness for the amended claim C1: the concrete 211 by 211 `dxt1` image
is passed through as its original file. -/
theorem passthrough_for_non_resize_formats_witness :
    buildImageTask "dxt1" dxt1PassthroughInput =
      .ok (ImageTask.passthroughFile "logo.png") := by
  have h := passthrough_for_non_resize_formats "dxt1" dxt1PassthroughInput
    (by tauto) (by decide) (by decide)
  simpa using h

/-- Concrete image for claim C7: an external gif, which no decoder handles,
so its decoded-pixel handle is absent. -/
def gifImageInput : ImageInput :=
  { hasJimpImage := false
    jimpWidth := 0
    jimpHeight := 0
    hasAbsolutePath := true
    absolutePath := "Cesium_Logo_Flat.gif"
    source := []
    transparent := false
    extension := ".gif"
    imageChanged := false }

/-- Concrete healthy sibling image for claim C7. -/
def pngSiblingInput : ImageInput :=
  { hasJimpImage := true
    jimpWidth := 256
    jimpHeight := 256
    hasAbsolutePath := false
    absolutePath := ""
    source := [9, 9]
    transparent := false
    extension := ".png"
    imageChanged := false }

/-- Claim C7, counterexample: the failure is not per-image.  The gif image
makes the task-creating loop throw synchronously, so the whole batch aborts
with that error and the healthy sibling image - whose own task would have
been created successfully - never gets a task at all. -/
theorem unsupported_input_aborts_sibling_tasks :
    buildTasks "etc1" [gifImageInput, pngSiblingInput] =
      .error (.developerError
        "The input image format \"etc1\" is not supported for texture compression.") ∧
    buildImageTask "etc1" pngSiblingInput = .ok (ImageTask.rawPixels 256 256) :=
  ⟨rfl, rfl⟩

/-- Claim C7, amended: when the raw pixel path is required (the branch
condition of the loop holds) and no decoded-pixel handle exists, the loop
throws a `DeveloperError` whose message names the requested compression
format; the throw is synchronous during task creation, so images after the
failing one in iteration order never get tasks (while tasks already created
for earlier images have already started and are not cancelled). -/
theorem unsupported_input_error_names_format :
    ∀ format img rest,
      (resizeToPowerOfTwoFor format || img.imageChanged ||
        !((inputExtensionsFor format).contains img.extension)) = true →
      img.hasJimpImage = false →
      buildTasks format (img :: rest) =
        .error (.developerError
          ("The input image format \"" ++ format ++
           "\" is not supported for texture compression.")) := by
  intro format img rest hcond hjimp
  unfold buildTasks buildImageTask
  rw [hcond, hjimp]
  rfl

/-- Witness for the amended claim C7 at the concrete gif input. -/
theorem unsupported_input_error_names_format_witness :
    buildTasks "etc1" [gifImageInput] =
      .error (.developerError
        "The input image format \"etc1\" is not supported for texture compression.") :=
  unsupported_input_error_names_format "etc1" gifImageInput [] (by decide) rfl

/-- Claim C4: `compressTextures` validates its options eagerly and throws a
synchronous `DeveloperError` (the `InvalidOptions` kind of the spec taxonomy)
- so no task is created and no asynchronous work or I/O starts - whenever the
format is not one of the 11 supported names, the quality is outside 0-10, the
bitrate for `pvrtc1`/`pvrtc2` is neither 2 nor 4, or the blockSize for `astc`
is not an enumerated value. -/
theorem compressTextures_validates_options_eagerly :
    (∀ images options format, options.format = some format →
      formats.contains format = false →
      isDeveloperError (compressTextures images options).2 = true) ∧
    (∀ images options format q, options.format = some format →
      options.quality = some q → (q < 0 ∨ 10 < q) →
      isDeveloperError (compressTextures images options).2 = true) ∧
    (∀ images options format b, options.format = some format →
      (format = "pvrtc1" ∨ format = "pvrtc2") →
      options.bitrate = some b → b ≠ 2 → b ≠ 4 →
      isDeveloperError (compressTextures images options).2 = true) ∧
    (∀ images options bs, options.format = some "astc" →
      options.blockSize = some bs → astcBlockSizes.contains bs = false →
      isDeveloperError (compressTextures images options).2 = true) := by
  refine ⟨?_, ?_, ?_, ?_⟩
  · intro images options format hfmt hmem
    simp only [compressTextures, hfmt, hmem]
    rfl
  · intro images options format q hfmt hq hrange
    simp only [compressTextures, hfmt, hq, Option.getD_some]
    split_ifs <;> rfl
  · intro images options format b hfmt hpv hb hb2 hb4
    have hmem : formats.contains format = true := by
      rcases hpv with h | h <;> subst h <;> decide
    simp only [compressTextures, hfmt, hmem, hb, Option.getD_some,
      Bool.not_true, Bool.false_eq_true, if_false]
    split_ifs <;> first | rfl | tauto
  · intro images options bs hfmt hbs hmem
    simp only [compressTextures, hfmt, hbs, Option.getD_some]
    split_ifs <;> first | rfl | tauto

/-- Witness for claim C4: each of the four concrete invalid option sets from
the spec examples is rejected with a `DeveloperError`. -/
theorem compressTextures_validates_options_eagerly_witness :
    isDeveloperError (compressTextures []
      { format := some "bogus", quality := none, bitrate := none,
        blockSize := none, alphaBit := none, extra := [] }).2 = true ∧
    isDeveloperError (compressTextures []
      { format := some "etc1", quality := some 11, bitrate := none,
        blockSize := none, alphaBit := none, extra := [] }).2 = true ∧
    isDeveloperError (compressTextures []
      { format := some "pvrtc1", quality := none, bitrate := some 3,
        blockSize := none, alphaBit := none, extra := [] }).2 = true ∧
    isDeveloperError (compressTextures []
      { format := some "astc", quality := none, bitrate := none,
        blockSize := some "1x1", alphaBit := none, extra := [] }).2 = true :=
  ⟨compressTextures_validates_options_eagerly.1 [] _ "bogus" rfl (by decide),
   compressTextures_validates_options_eagerly.2.1 [] _ "etc1" 11 rfl rfl
     (Or.inr (by norm_num)),
   compressTextures_validates_options_eagerly.2.2.1 [] _ "pvrtc1" 3 rfl
     (Or.inl rfl) rfl (by norm_num) (by norm_num),
   compressTextures_validates_options_eagerly.2.2.2 [] _ "1x1" rfl rfl
     (by decide)⟩

/-- Claim C9: once the format name passes the membership check,
`compressTextures` writes the defaults (quality 5, bitrate 2.0, blockSize
"8x8", alphaBit false) into the caller-supplied options object for every
absent field - keeping any value the caller did supply - and leaves every
other field (`format` and all unrelated properties) unchanged, regardless of
whether the later value validation then throws. -/
theorem compressTextures_writes_defaults_into_options :
    ∀ images options format, options.format = some format →
      formats.contains format = true →
      (compressTextures images options).1 =
        { format := options.format
          quality := some (options.quality.getD 5)
          bitrate := some (options.bitrate.getD 2)
          blockSize := some (options.blockSize.getD "8x8")
          alphaBit := some (options.alphaBit.getD false)
          extra := options.extra } := by
  intro images options format hfmt hmem
  simp only [compressTextures, hfmt, hmem, Bool.not_true, Bool.false_eq_true,
    if_false]
  split_ifs <;> rfl

/-- Witness for claim C9: a caller passing only `format: "etc1"` observes all
four defaults written into the same object afterwards. -/
theorem compressTextures_writes_defaults_into_options_witness :
    (compressTextures []
      { format := some "etc1", quality := none, bitrate := none,
        blockSize := none, alphaBit := none, extra := [("foo", "bar")] }).1 =
      { format := some "etc1", quality := some 5, bitrate := some 2,
        blockSize := some "8x8", alphaBit := some false,
        extra := [("foo", "bar")] } :=
  compressTextures_writes_defaults_into_options [] _ "etc1" rfl (by decide)

/-- Claim C8: for every successful per-image compression, `compressFile`
pairs the result with container extension `.ktx` for the eight non-crunch
formats and with the proprietary `.crn` extension exactly for the three
`crunch-*` formats. -/
theorem compressFile_container_extension :
    compressFileExtension "pvrtc1" = ".ktx" ∧
    compressFileExtension "pvrtc2" = ".ktx" ∧
    compressFileExtension "etc1" = ".ktx" ∧
    compressFileExtension "etc2" = ".ktx" ∧
    compressFileExtension "astc" = ".ktx" ∧
    compressFileExtension "dxt1" = ".ktx" ∧
    compressFileExtension "dxt3" = ".ktx" ∧
    compressFileExtension "dxt5" = ".ktx" ∧
    compressFileExtension "crunch-dxt1" = ".crn" ∧
    compressFileExtension "crunch-dxt3" = ".crn" ∧
    compressFileExtension "crunch-dxt5" = ".crn" := by
  decide

/-- Claim C10: for every quality value in the validated range 0-10, the tier
index `floor(quality / 2.1)` lies in 0..4, so indexing each five-element
encoder quality table always yields a defined entry; quality 0 maps to tier 0
and quality 10 maps to tier 4. -/
theorem qualityTier_lookup_total :
    (∀ q : ℚ, 0 ≤ q → q ≤ 10 →
      0 ≤ qualityTier q ∧ qualityTier q ≤ 4 ∧
      (pvrtcQualityOptions.get? (qualityTier q).toNat).isSome = true ∧
      (dxtQualityOptions.get? (qualityTier q).toNat).isSome = true ∧
      (astcQualityOptions.get? (qualityTier q).toNat).isSome = true) ∧
    qualityTier 0 = 0 ∧ qualityTier 10 = 4 := by
  refine ⟨?_, ?_, ?_⟩
  · intro q h0 h10
    have hpos : (0 : ℚ) < 21 / 10 := by norm_num
    have ht0 : 0 ≤ qualityTier q :=
      Int.floor_nonneg.mpr (div_nonneg h0 (le_of_lt hpos))
    have ht4 : qualityTier q ≤ 4 := by
      have hlt : qualityTier q < 5 := by
        rw [qualityTier, Int.floor_lt]
        rw [div_lt_iff₀ hpos]
        push_cast
        linarith
      omega
    refine ⟨ht0, ht4, ?_, ?_, ?_⟩ <;>
    · have hn : (qualityTier q).toNat ≤ 4 := by omega
      set m := (qualityTier q).toNat with hm
      interval_cases m <;> decide
  · rw [qualityTier]
    norm_num
  · rw [qualityTier, Int.floor_eq_iff]
    constructor <;> norm_num

/-- Witness for claim C10 at the concrete quality 7 (tier 3). -/
theorem qualityTier_lookup_total_witness :
    0 ≤ qualityTier 7 ∧ qualityTier 7 ≤ 4 ∧
    (pvrtcQualityOptions.get? (qualityTier 7).toNat).isSome = true ∧
    (dxtQualityOptions.get? (qualityTier 7).toNat).isSome = true ∧
    (astcQualityOptions.get? (qualityTier 7).toNat).isSome = true :=
  qualityTier_lookup_total.1 7 (by norm_num) (by norm_num)

/-- Claim C2, evaluation at the failing input: parsing the concrete
well-formed DXT1 container that declares 2 mip levels yields a bufferView of
exactly the level-0 size (8 bytes for 4 by 4 DXT1), but rooted at offset 0 of
the whole file - `new Uint8Array(texture.buffer, 0, levelSize)` forgets the
byte offset of the texture section - so the exposed bytes are the file magic,
not the first level-0-size bytes of the texture data section at offset 68. -/
theorem ktx_mip_truncation_misaligned_slice :
    parseKTX ktxTwoMipContainer =
      .ok { internalFormat := 0x83F0, width := 4, height := 4,
            viewOffset := 0, viewLength := 8 } ∧
    compressedTextureSize 0x83F0 4 4 = 8 ∧
    parseKTXViewBytes ktxTwoMipContainer =
      [0xAB, 0x4B, 0x54, 0x58, 0x20, 0x31, 0x31, 0xBB] ∧
    (ktxTwoMipContainer.drop 68).take 8 =
      [100, 101, 102, 103, 104, 105, 106, 107] ∧
    parseKTXViewBytes ktxTwoMipContainer ≠ (ktxTwoMipContainer.drop 68).take 8 := by
  refine ⟨rfl, rfl, rfl, rfl, ?_⟩
  decide

/-- Claim C5, evaluation at the failing inputs: a buffer with a wrong magic
and a buffer with correct magic but byte-swapped endianness marker both make
`parseKTX` raise the same `TypeError` - because the source misspells
`Cesium.RuntimError`, no `RuntimeError` of a distinct kind
(`InvalidContainer` vs `WrongEndianness`) is ever constructed, and the two
failures are indistinguishable.  (The check order itself does follow the
claim: magic first, endianness second, before any other validation.) -/
theorem parseKTX_error_kinds_not_distinct :
    parseKTX ktxBadMagicBuffer = .error JSError.typeErrorCtor ∧
    parseKTX ktxBadEndianBuffer = .error JSError.typeErrorCtor ∧
    parseKTX ktxBadMagicBuffer = parseKTX ktxBadEndianBuffer :=
  ⟨rfl, rfl, rfl⟩
